import Mathlib

/-!
Shallow embedding of `sahi/prediction.py`: the `PredictionScore`,
`ObjectPrediction` and `PredictionInput` classes, together with the
geometry collaborators (`BoundingBox`, `Mask`, the annotated-region base
class) and the tensor helpers (`to_float_tensor`, `torch_stack`) that the
file imports from elsewhere in the repository.  The collaborators are not
part of the given source tree, so they are modelled from the spec where a
definition needs them; each such definition says so in its doc comment.

Numbers: Python scalars (scores, pixel values) are embedded as `ℚ`;
box coordinates and shift offsets as `Int`.
-/

namespace Sahi

/-- A Python numeric value as it reaches `PredictionScore.__init__`: either a
plain Python float/int, or a numpy boxed scalar (a value whose type's
`__module__` is `"numpy"`). -/
inductive PyNumber where
  | pyFloat (v : ℚ)
  | numpyScalar (v : ℚ)
deriving DecidableEq

/-- The numeric value carried by a `PyNumber`, whatever its boxing. -/
def PyNumber.val : PyNumber → ℚ
  | .pyFloat v => v
  | .numpyScalar v => v

/-- True when the value is a plain Python primitive (not a numpy boxed type). -/
def PyNumber.isPlain : PyNumber → Bool
  | .pyFloat _ => true
  | .numpyScalar _ => false

/-- Embeds the check `type(score).__module__ == "numpy"` from
`PredictionScore.__init__`. -/
def PyNumber.fromNumpyModule : PyNumber → Bool
  | .pyFloat _ => false
  | .numpyScalar _ => true

/-- Embeds `copy.deepcopy(score).tolist()`: numpy's `tolist()` on a zero-dim
boxed scalar returns the equal plain Python scalar; the deep copy does not
change the value. -/
def PyNumber.deepcopyTolist : PyNumber → PyNumber
  | .pyFloat v => .pyFloat v
  | .numpyScalar v => .pyFloat v

/-- `PredictionScore`: stores the (possibly unwrapped) score value. -/
structure PredictionScore where
  score : PyNumber
deriving DecidableEq

/-- Embeds `PredictionScore.__init__`: if the score comes from the numpy
module it is deep-copied and converted to a plain Python scalar via
`tolist()`; the (possibly converted) value is stored unconditionally — there
is no clamping, range check, or failure path. -/
def PredictionScore.init (score : PyNumber) : PredictionScore :=
  if score.fromNumpyModule then ⟨score.deepcopyTolist⟩ else ⟨score⟩

/-- Embeds `PredictionScore.is_greater_than_threshold`: Python
`self.score > threshold` (a strict numeric comparison). -/
def PredictionScore.is_greater_than_threshold (p : PredictionScore) (threshold : ℚ) : Bool :=
  decide (p.score.val > threshold)

/-- An axis-aligned box in `[minx, miny, maxx, maxy]` (voc) form, the
representation `ObjectPrediction.__init__` receives and
`to_voc_bbox()` returns. -/
structure BoundingBox where
  minx : Int
  miny : Int
  maxx : Int
  maxy : Int
deriving DecidableEq

/-- Modelled from the spec: the geometry collaborator's box translation
(`get_shifted_box` followed by `to_voc_bbox`), which is not under the given
source tree.  Per the spec, the shifted box is the box translated
element-wise by the record's shift offset `[shift_x, shift_y]`, still in
axis-aligned min/max form. -/
def BoundingBox.get_shifted_box (b : BoundingBox) (shift : Int × Int) : BoundingBox :=
  ⟨b.minx + shift.1, b.miny + shift.2, b.maxx + shift.1, b.maxy + shift.2⟩

/-- Modelled from the spec: the `Mask` collaborator (not under the given
source tree).  It holds a 2D boolean mask together with its coordinate
frame: the tile's shift offset and the full image size `[height, width]`
(optional, mirroring the record's optional field). -/
structure Mask where
  bool_mask : List (List Bool)
  shift_amount : Int × Int
  full_image_size : Option (Int × Int)
deriving DecidableEq

/-- Reads cell `(r, c)` of a 2D boolean grid, `false` outside its bounds. -/
def maskLookup (bm : List (List Bool)) (r c : Int) : Bool :=
  if 0 ≤ r ∧ 0 ≤ c then ((bm.getD r.toNat []).getD c.toNat false) else false

/-- Paints a 2D boolean grid translated by `(dx, dy)` onto an `h × w`
canvas of `false`. -/
def shiftedGrid (bm : List (List Bool)) (dx dy : Int) (h w : Nat) : List (List Bool) :=
  (List.range h).map fun r =>
    (List.range w).map fun c =>
      maskLookup bm ((r : Int) - dy) ((c : Int) - dx)

/-- Modelled from the spec: the mask collaborator's `get_shifted_mask`
(not under the given source tree): the mask translated by the same offset
as the box, placed on the full-image canvas, with its frame reset to a
zero shift and the same recorded full-image size. -/
def Mask.get_shifted_mask (m : Mask) : Mask :=
  { bool_mask :=
      match m.full_image_size with
      | some (h, w) => shiftedGrid m.bool_mask m.shift_amount.1 m.shift_amount.2 h.toNat w.toNat
      | none => m.bool_mask
  , shift_amount := (0, 0)
  , full_image_size := m.full_image_size }

/-- Modelled from the spec: the accessor for the shifted mask's recorded
full-image size. -/
def Mask.get_full_image_size (m : Mask) : Option (Int × Int) :=
  m.full_image_size

/-- The category label of a detection: required integer id, optional name. -/
structure Category where
  id : Int
  name : Option String
deriving DecidableEq

/-- `ObjectPrediction`: one detection record.  The fields `bbox`,
`category`, `mask` live in the annotated-region base class, which is not
under the given source tree and is modelled from the spec's data model
(score, box, category id/name, optional mask, shift offset, optional full
image size). -/
structure ObjectPrediction where
  bbox : BoundingBox
  score : PredictionScore
  category : Category
  mask : Option Mask
  shift_amount : Int × Int
  full_image_size : Option (Int × Int)
deriving DecidableEq

/-- Embeds `ObjectPrediction.__init__`: wraps the raw score in a
`PredictionScore`; the base-class part (modelled from the spec) stores the
box, category, shift offset and optional full-image size, and builds the
optional mask in the same frame as the box. -/
def ObjectPrediction.init (bbox : BoundingBox) (score : PyNumber) (category_id : Int)
    (category_name : Option String) (bool_mask : Option (List (List Bool)))
    (shift_amount : Int × Int) (full_image_size : Option (Int × Int)) : ObjectPrediction :=
  { bbox := bbox
  , score := PredictionScore.init score
  , category := ⟨category_id, category_name⟩
  , mask := bool_mask.map fun bm =>
      { bool_mask := bm, shift_amount := shift_amount, full_image_size := full_image_size }
  , shift_amount := shift_amount
  , full_image_size := full_image_size }

/-- Embeds `ObjectPrediction.get_shifted_object_prediction`: when a mask is
present, a new record from the shifted box, the shifted mask, a zero shift
and the shifted mask's recorded full-image size; otherwise a new record
from the shifted box, no mask, a zero shift and no full-image size.  Score
and category are passed through to the new record's constructor. -/
def ObjectPrediction.get_shifted_object_prediction (p : ObjectPrediction) : ObjectPrediction :=
  match p.mask with
  | some m =>
      ObjectPrediction.init (p.bbox.get_shifted_box p.shift_amount) p.score.score
        p.category.id p.category.name (some m.get_shifted_mask.bool_mask) (0, 0)
        m.get_shifted_mask.get_full_image_size
  | none =>
      ObjectPrediction.init (p.bbox.get_shifted_box p.shift_amount) p.score.score
        p.category.id p.category.name none (0, 0) none

/-- State-passing embedding of the same method call: the Python body only
reads `self` and assigns no attribute of it, so the post-call state of the
receiver is the receiver unchanged; the first component is the returned
new record, the second the receiver after the call. -/
def ObjectPrediction.get_shifted_object_prediction_run (p : ObjectPrediction) :
    ObjectPrediction × ObjectPrediction :=
  (p.get_shifted_object_prediction, p)

/-- A raw image as `rows × cols × channels` of numeric pixel values. -/
abbrev Image := List (List (List ℚ))

/-- A detector-input tensor in channel-first `channels × rows × cols` form. -/
abbrev Tensor := List (List (List ℚ))

/-- All pixel entries of an image, flattened. -/
def imageEntries (im : Image) : List ℚ :=
  (im.map fun row => row.flatten).flatten

/-- Embeds `np.max(image)`: the maximum entry of the (nonempty) image. -/
def np_max (im : Image) : ℚ :=
  match imageEntries im with
  | [] => 0
  | x :: xs => xs.foldl max x

/-- Embeds `image / d`: elementwise division of every pixel value. -/
def imageDiv (im : Image) (d : ℚ) : Image :=
  im.map fun row => row.map fun px => px.map fun v => v / d

/-- Channel count of an image (length of its first pixel). -/
def numChannels (im : Image) : Nat :=
  ((im.headD []).headD []).length

/-- Modelled from the spec: `to_float_tensor` from the torch utilities
(not under the given source tree) converts an image to the channel-first
tensor layout the detector expects, preserving every pixel value. -/
def to_float_tensor (im : Image) : Tensor :=
  (List.range (numChannels im)).map fun k =>
    im.map fun row => row.map fun px => px.getD k 0

/-- Modelled from the spec: `torch_stack` with `dim=0` (not under the given
source tree) stacks the per-image tensors along a new leading batch
dimension, preserving their order. -/
def torch_stack (ts : List Tensor) : List Tensor :=
  ts

/-- `PredictionInput`: the assembled batch. -/
structure PredictionInput where
  image_list : List Image
  batch_image_tensor : List Tensor
  shift_amount_list : List (Int × Int)
  full_image_size : Option (Int × Int)
deriving DecidableEq

/-- Embeds `PredictionInput.__init__`: each image is divided by its own
`np.max`, converted with `to_float_tensor`, the results stacked with
`torch_stack`; `shift_amount_list` is stored as supplied when it is truthy
(a nonempty list), otherwise replaced by `[[0, 0] for ind in
range(len(image_list))]`.  `None` for an omitted argument is `none`;
an explicitly supplied list is `some`.  No length comparison between
`image_list` and `shift_amount_list` is performed anywhere in the body. -/
def PredictionInput.init (image_list : List Image)
    (shift_amount_list : Option (List (Int × Int)))
    (full_image_size : Option (Int × Int)) : PredictionInput :=
  let image_tensor_list := image_list.map fun image => to_float_tensor (imageDiv image (np_max image))
  let batch_image_tensor := torch_stack image_tensor_list
  { image_list := image_list
  , batch_image_tensor := batch_image_tensor
  , shift_amount_list :=
      match shift_amount_list with
      | some (x :: xs) => x :: xs
      | _ => (List.range image_list.length).map fun _ => ((0 : Int), (0 : Int))
  , full_image_size := full_image_size }

/-- The spatial signature of an image: row count, column count, channel
count. -/
def imageShape (im : Image) : Nat × Nat × Nat :=
  (im.length, (im.headD []).length, numChannels im)

/-- A concrete one-pixel, one-channel image with value 2. -/
def exImg : Image := [[[2]]]

/-- A concrete image list of length 3. -/
def exImageList3 : List Image := [exImg, exImg, exImg]

/-- A concrete shift list of length 2 (shorter than `exImageList3`). -/
def exShortShiftList : List (Int × Int) := [(0, 0), (5, 5)]

/-- A concrete one-pixel image with maximum value 100. -/
def exImgA : Image := [[[100]]]

/-- A concrete one-pixel image with maximum value 50. -/
def exImgB : Image := [[[50]]]

/-- A concrete image list of length 2 with different per-image maxima. -/
def exPairList : List Image := [exImgA, exImgB]

/-- A concrete shift list matching `exPairList` in length. -/
def exPairShifts : List (Int × Int) := [(0, 0), (100, 0)]

/-- A concrete detection record with a mask, a nonzero shift and a
full-image size. -/
def exRecord : ObjectPrediction :=
  ObjectPrediction.init ⟨0, 0, 50, 50⟩ (.pyFloat (9 / 10)) 2 (some "car")
    (some [[true, false], [false, true]]) (200, 300) (some (1000, 1200))

/-! Theorems -/

/-- C1: for every `ObjectPrediction` with box `[minx, miny, maxx, maxy]` and
shift amount `[dx, dy]`, the record returned by
`get_shifted_object_prediction` has box
`[minx + dx, miny + dy, maxx + dx, maxy + dy]`, the original box translated
element-wise by the shift offset, in axis-aligned min/max form. -/
theorem shifted_prediction_box_translated (p : ObjectPrediction) :
    p.get_shifted_object_prediction.bbox =
      ⟨p.bbox.minx + p.shift_amount.1, p.bbox.miny + p.shift_amount.2,
       p.bbox.maxx + p.shift_amount.1, p.bbox.maxy + p.shift_amount.2⟩ := by
  cases hm : p.mask <;>
    simp [ObjectPrediction.get_shifted_object_prediction, ObjectPrediction.init, hm,
      BoundingBox.get_shifted_box]

/-- C3: for every `ObjectPrediction`, the record returned by
`get_shifted_object_prediction` has `shift_amount = [0, 0]` regardless of the
original offset; its `full_image_size` equals the shifted mask's recorded
full-image size when the original record has a mask, and is unset when it
has none. -/
theorem shifted_prediction_resets_offset (p : ObjectPrediction) :
    p.get_shifted_object_prediction.shift_amount = (0, 0) ∧
    p.get_shifted_object_prediction.full_image_size =
      (match p.mask with
       | some m => m.get_shifted_mask.get_full_image_size
       | none => none) := by
  cases hm : p.mask <;>
    simp [ObjectPrediction.get_shifted_object_prediction, ObjectPrediction.init, hm]

/-- C5: for every stored score and every threshold,
`is_greater_than_threshold` returns `true` iff the score is strictly greater
than the threshold; a score exactly equal to the threshold yields `false`. -/
theorem score_threshold_strict (n : PyNumber) (t : ℚ) :
    ((PredictionScore.init n).is_greater_than_threshold t = true ↔ n.val > t) := by
  cases n <;>
    simp [PredictionScore.init, PredictionScore.is_greater_than_threshold,
      PyNumber.fromNumpyModule, PyNumber.deepcopyTolist, PyNumber.val]

/-- C9: `PredictionScore` construction succeeds for every numeric input
value (any value is stored without clamping or validation: the stored value
equals the input value), and the stored score is always a plain primitive
scalar — a numpy boxed scalar is deep-copied and unwrapped at
construction. -/
theorem score_construction_unwraps (s : PyNumber) :
    (PredictionScore.init s).score.isPlain = true ∧
    (PredictionScore.init s).score.val = s.val := by
  cases s <;>
    simp [PredictionScore.init, PyNumber.fromNumpyModule, PyNumber.deepcopyTolist,
      PyNumber.isPlain, PyNumber.val]

/-- C8: constructing a `PredictionInput` without supplying
`shift_amount_list` yields `shift_amount_list = [[0, 0]]` repeated once per
image, length-matched to `image_list`. -/
theorem default_shift_amount_list (L : List Image) (fis : Option (Int × Int)) :
    (PredictionInput.init L none fis).shift_amount_list =
      List.replicate L.length ((0 : Int), (0 : Int)) := by
  simp [PredictionInput.init, List.map_const']

/-- C6: `get_shifted_object_prediction` carries score, category id and
category name over unchanged into the new record, and the new record has a
mask iff the original has one.  The hypothesis records the constructor
invariant that the stored score is a plain primitive. -/
theorem shifted_prediction_carries_fields (p : ObjectPrediction)
    (h : p.score.score.isPlain = true) :
    p.get_shifted_object_prediction.score = p.score ∧
    p.get_shifted_object_prediction.category.id = p.category.id ∧
    p.get_shifted_object_prediction.category.name = p.category.name ∧
    (p.get_shifted_object_prediction.mask.isSome ↔ p.mask.isSome) := by
  obtain ⟨bbox, ⟨sc⟩, cat, mask, shift, fis⟩ := p
  cases sc with
  | numpyScalar v => simp [PyNumber.isPlain] at h
  | pyFloat v =>
      cases mask <;>
        simp [ObjectPrediction.get_shifted_object_prediction, ObjectPrediction.init,
          PredictionScore.init, PyNumber.fromNumpyModule]

/-- Witness for C6 at a concrete record with mask, score 9/10, category 2
named car, shift (200, 300). -/
theorem shifted_prediction_carries_fields_witness :
    exRecord.score.score.isPlain = true ∧
    (exRecord.get_shifted_object_prediction.score = exRecord.score ∧
     exRecord.get_shifted_object_prediction.category.id = exRecord.category.id ∧
     exRecord.get_shifted_object_prediction.category.name = exRecord.category.name ∧
     (exRecord.get_shifted_object_prediction.mask.isSome ↔ exRecord.mask.isSome)) :=
  ⟨by decide, shifted_prediction_carries_fields exRecord (by decide)⟩

/-- C7: `get_shifted_object_prediction` never mutates its receiver: in the
state-passing embedding of the call, every field of the receiver after the
call (box, score, category, mask, shift amount, full image size) equals the
corresponding field before it; the returned record is a separate value. -/
theorem shift_does_not_mutate (p : ObjectPrediction) :
    p.get_shifted_object_prediction_run.2.bbox = p.bbox ∧
    p.get_shifted_object_prediction_run.2.score = p.score ∧
    p.get_shifted_object_prediction_run.2.category = p.category ∧
    p.get_shifted_object_prediction_run.2.mask = p.mask ∧
    p.get_shifted_object_prediction_run.2.shift_amount = p.shift_amount ∧
    p.get_shifted_object_prediction_run.2.full_image_size = p.full_image_size ∧
    p.get_shifted_object_prediction_run.1 = p.get_shifted_object_prediction :=
  ⟨rfl, rfl, rfl, rfl, rfl, rfl, rfl⟩

/-- C2 counterexample: constructing a `PredictionInput` from an image list
of length 3 and a shift list of length 2 does not fail: it returns a record
whose `shift_amount_list` is the mismatched length-2 list, stored verbatim —
no length check exists in `PredictionInput.__init__`, so no
ConstructionMismatch error is raised at construction time. -/
theorem mismatched_lengths_accepted :
    (PredictionInput.init exImageList3 (some exShortShiftList) none).image_list.length = 3 ∧
    (PredictionInput.init exImageList3 (some exShortShiftList) none).shift_amount_list
      = exShortShiftList ∧
    (PredictionInput.init exImageList3 (some exShortShiftList) none).shift_amount_list.length
      ≠ (PredictionInput.init exImageList3 (some exShortShiftList) none).image_list.length := by
  refine ⟨rfl, rfl, by decide⟩

/-- C2 amended: a supplied nonempty `shift_amount_list` is stored verbatim,
with no comparison against the length of `image_list`; a length mismatch is
accepted silently at construction. -/
theorem supplied_shift_list_stored_verbatim (L : List Image) (sal : List (Int × Int))
    (fis : Option (Int × Int)) (h : sal ≠ []) :
    (PredictionInput.init L (some sal) fis).shift_amount_list = sal := by
  cases sal with
  | nil => exact absurd rfl h
  | cons x xs => rfl

/-- Witness for the amended C2 at the mismatched concrete input: three
images, two shift offsets. -/
theorem supplied_shift_list_stored_verbatim_witness :
    exShortShiftList ≠ [] ∧
    (PredictionInput.init exImageList3 (some exShortShiftList) none).shift_amount_list
      = exShortShiftList :=
  ⟨by decide, supplied_shift_list_stored_verbatim exImageList3 exShortShiftList none (by decide)⟩

/-- C10: supplying `shift_amount_list` as an explicitly empty list together
with a non-empty `image_list` raises no error: the empty list is falsy in
the truthiness check, so it is treated exactly like an omitted argument and
replaced by the synthesized default `[[0, 0]]` repeated once per image. -/
theorem empty_shift_list_treated_as_omitted (L : List Image) (fis : Option (Int × Int))
    (h : L ≠ []) :
    (PredictionInput.init L (some []) fis).shift_amount_list =
      List.replicate L.length ((0 : Int), (0 : Int)) ∧
    (PredictionInput.init L (some []) fis).shift_amount_list =
      (PredictionInput.init L none fis).shift_amount_list := by
  exact ⟨by simp [PredictionInput.init, List.map_const'], rfl⟩

/-- Witness for C10 at a concrete non-empty image list of length 3. -/
theorem empty_shift_list_treated_as_omitted_witness :
    exImageList3 ≠ [] ∧
    (PredictionInput.init exImageList3 (some []) none).shift_amount_list =
      List.replicate exImageList3.length ((0 : Int), (0 : Int)) :=
  ⟨by decide, (empty_shift_list_treated_as_omitted exImageList3 none (by decide)).1⟩

/-- C4: for a non-empty list of same-shaped images with a supplied shift
list of matching length, the batch tensor is exactly the list of per-image
tensors in `image_list` order, where entry `i` is image `i` divided by that
image's own maximum pixel value and converted to channel-first layout; the
stored shift list is the supplied one, so batch index `i` corresponds to
`shift_amount_list[i]`. -/
theorem batch_tensor_per_image_normalized (L : List Image) (sal : List (Int × Int))
    (fis : Option (Int × Int)) (hne : L ≠ [])
    (hshape : ∀ im ∈ L, imageShape im = imageShape (L.headD []))
    (hlen : sal.length = L.length) :
    (PredictionInput.init L (some sal) fis).batch_image_tensor =
      L.map (fun im => to_float_tensor (imageDiv im (np_max im))) ∧
    (PredictionInput.init L (some sal) fis).batch_image_tensor.length = L.length ∧
    (∀ i, i < L.length →
      (PredictionInput.init L (some sal) fis).batch_image_tensor.getD i [] =
        to_float_tensor (imageDiv (L.getD i []) (np_max (L.getD i [])))) ∧
    (PredictionInput.init L (some sal) fis).shift_amount_list = sal := by
  refine ⟨rfl, by simp [PredictionInput.init, torch_stack], ?_, ?_⟩
  · intro i hi
    show (L.map (fun im => to_float_tensor (imageDiv im (np_max im)))).getD i [] = _
    rw [List.getD_eq_getElem?_getD, List.getElem?_map, List.getElem?_eq_getElem hi,
      List.getD_eq_getElem?_getD, List.getElem?_eq_getElem hi]
    rfl
  · cases sal with
    | nil =>
        cases L with
        | nil => exact absurd rfl hne
        | cons a as => simp at hlen
    | cons x xs => rfl

/-- Witness for C4 at two one-pixel images with maxima 100 and 50 and a
matching shift list: each image normalizes against its own maximum. -/
theorem batch_tensor_per_image_normalized_witness :
    exPairList ≠ [] ∧
    exPairShifts.length = exPairList.length ∧
    (PredictionInput.init exPairList (some exPairShifts) none).batch_image_tensor =
      exPairList.map (fun im => to_float_tensor (imageDiv im (np_max im))) :=
  ⟨by decide, by decide,
    (batch_tensor_per_image_normalized exPairList exPairShifts none (by decide) (by decide)
      (by decide)).1⟩

end Sahi
